import Mathlib

/-!
Shallow embedding of the hit-component-admin-dashboard service:
the SDUI spec builders of `app/ui_specs.py` and the request handlers of
`app/main.py`, together with the Node Schema well-formedness contract.
Python dictionaries/JSON documents are embedded as the inductive `JVal`;
the builders are translated clause by clause from the source.
-/

namespace AdminDashboard

/-- A JSON-like value, the shape of the Python dicts the builders return.
Objects keep their entries in source order, as Python dict literals do. -/
inductive JVal where
  | null
  | bool (b : Bool)
  | int (n : Int)
  | str (s : String)
  | arr (elems : List JVal)
  | obj (entries : List (String × JVal))

/-- A Python dict with string keys, as the builders consume and produce. -/
abbrev JObj := List (String × JVal)

/-- `d.get(k, dflt)` of a Python dict. -/
def dictGet (d : JObj) (k : String) (dflt : JVal) : JVal :=
  match d.lookup k with
  | some v => v
  | none => dflt

/-- The closed set of UI node types registered by the Node Schema. -/
def nodeTypes : List String :=
  ["Page", "Card", "Form", "DataTable", "Button", "StatsGrid", "Modal",
   "TextField", "Checkbox", "Alert", "Text", "Row", "Column", "Link"]

/-- The closed set of action types registered by the Node Schema. -/
def actionTypes : List String := ["navigate", "openModal", "api", "refresh"]

/-- The `type` entry of an object is a string drawn from the node-type set. -/
def nodeTypeOk (fs : JObj) : Bool :=
  match fs.lookup "type" with
  | some (.str t) => nodeTypes.contains t
  | _ => false

/-- The `type` entry of an object is a string drawn from the action-type set. -/
def actionTypeOk (fs : JObj) : Bool :=
  match fs.lookup "type" with
  | some (.str t) => actionTypes.contains t
  | _ => false

/-- A form field entry carries a non-empty string `name`. -/
def fieldNameOk (v : JVal) : Bool :=
  match v with
  | .obj fs =>
      match fs.lookup "name" with
      | some (.str s) => !s.isEmpty
      | _ => false
  | _ => false

/-- If the object is a Form node, each entry of its `fields` list carries a
non-empty `name`. -/
def formFieldsOk (fs : JObj) : Bool :=
  match fs.lookup "type" with
  | some (.str "Form") =>
      match fs.lookup "fields" with
      | some (.arr vs) => vs.all fieldNameOk
      | _ => false
  | _ => true

mutual

/-- Recursive Node Schema well-formedness of a UI node: its `type` is a
registered node type, a Form's fields all carry non-empty names, and every
nested node, action and StatsGrid item is well-formed in turn. -/
def wfNode : JVal → Bool
  | .obj fs => nodeTypeOk fs && formFieldsOk fs && wfNodeEntries fs
  | _ => false

/-- Walk an object's entries: child-node lists (`children`, `actions`,
`fields`, `rowActions`, `footer`) must hold well-formed nodes, `onClick` and
`onSuccess` must be well-formed actions, `items` (StatsGrid) must hold
well-formed items; all other entries are data, not nodes. -/
def wfNodeEntries : JObj → Bool
  | [] => true
  | (k, v) :: rest =>
      (if k = "children" || k = "actions" || k = "fields" ||
          k = "rowActions" || k = "footer" then wfNodeArr v
       else if k = "onClick" || k = "onSuccess" then wfAction v
       else if k = "items" then wfItemArr v
       else true) && wfNodeEntries rest

/-- A child-node list is an array of well-formed nodes. -/
def wfNodeArr : JVal → Bool
  | .arr vs => wfNodeList vs
  | _ => false

def wfNodeList : List JVal → Bool
  | [] => true
  | v :: vs => wfNode v && wfNodeList vs

/-- Well-formedness of an action value: its `type` is a registered action
type, an `openModal` carries a well-formed modal node, and a nested
`onSuccess` action is itself well-formed. -/
def wfAction : JVal → Bool
  | .obj fs => actionTypeOk fs && wfActionEntries fs
  | _ => false

def wfActionEntries : JObj → Bool
  | [] => true
  | (k, v) :: rest =>
      (if k = "modal" then wfNode v
       else if k = "onSuccess" then wfAction v
       else true) && wfActionEntries rest

/-- StatsGrid items are not nodes, but any action they bind must be
well-formed. -/
def wfItemArr : JVal → Bool
  | .arr vs => wfItemList vs
  | _ => false

def wfItemList : List JVal → Bool
  | [] => true
  | v :: vs => wfItem v && wfItemList vs

def wfItem : JVal → Bool
  | .obj fs => wfItemEntries fs
  | _ => false

def wfItemEntries : JObj → Bool
  | [] => true
  | (k, v) :: rest =>
      (if k = "onClick" || k = "onSuccess" then wfAction v else true) &&
      wfItemEntries rest

end

/-- Python's built-in `round` to the nearest integer: ties go to the even
integer (banker's rounding). -/
def pyRound (q : ℚ) : Int :=
  let f : Int := Int.floor q
  let r : ℚ := q - f
  if r < 1/2 then f
  else if 1/2 < r then f + 1
  else if f % 2 = 0 then f else f + 1

/-- Python `/` (true division) raising `ZeroDivisionError` on a zero
divisor, embedded as `none`. -/
def pyTrueDiv (a b : ℚ) : Option ℚ :=
  if b = 0 then none else some (a / b)

/-- The `change` expression of the Verified stats item with the division
made explicit: `round(verified_users / total_users * 100) if total_users > 0
else 0`, where a `none` marks a `ZeroDivisionError`. -/
def dashboardChangeChecked (verified_users total_users : Int) : Option Int :=
  if 0 < total_users then
    (pyTrueDiv (verified_users : ℚ) (total_users : ℚ)).map (fun q => pyRound (q * 100))
  else
    some 0

/-- `get_dashboard_spec` of `app/ui_specs.py`: the main dashboard page UI
spec, translated entry by entry from the Python dict literal. -/
def get_dashboard_spec (total_users : Int) (verified_users : Int)
    (recent_users : List JObj) : JVal :=
  .obj [
    ("type", .str "Page"),
    ("title", .str "Admin Dashboard"),
    ("description", .str "Overview of your application"),
    ("actions", .arr [
      .obj [
        ("type", .str "Button"),
        ("label", .str "Add User"),
        ("variant", .str "primary"),
        ("icon", .str "+"),
        ("onClick", .obj [
          ("type", .str "openModal"),
          ("modal", .obj [
            ("type", .str "Modal"),
            ("title", .str "Add New User"),
            ("size", .str "md"),
            ("children", .arr [
              .obj [
                ("type", .str "Form"),
                ("endpoint", .str "/api/users"),
                ("method", .str "POST"),
                ("submitText", .str "Create User"),
                ("cancelText", .str "Cancel"),
                ("fields", .arr [
                  .obj [
                    ("type", .str "TextField"),
                    ("name", .str "email"),
                    ("label", .str "Email"),
                    ("inputType", .str "email"),
                    ("required", .bool true),
                    ("placeholder", .str "user@example.com")
                  ],
                  .obj [
                    ("type", .str "TextField"),
                    ("name", .str "password"),
                    ("label", .str "Password"),
                    ("inputType", .str "password"),
                    ("required", .bool true)
                  ],
                  .obj [
                    ("type", .str "Checkbox"),
                    ("name", .str "email_verified"),
                    ("label", .str "Email Verified"),
                    ("checkboxLabel", .str "Mark email as verified")
                  ]
                ]),
                ("onSuccess", .obj [("type", .str "refresh")])
              ]
            ])
          ])
        ])
      ]
    ]),
    ("children", .arr [
      .obj [
        ("type", .str "StatsGrid"),
        ("columns", .int 4),
        ("items", .arr [
          .obj [
            ("label", .str "Total Users"),
            ("value", .int total_users),
            ("icon", .str "👥"),
            ("onClick", .obj [("type", .str "navigate"), ("to", .str "/admin/users")])
          ],
          .obj [
            ("label", .str "Verified"),
            ("value", .int verified_users),
            ("icon", .str "✓"),
            ("change", .int (
              if 0 < total_users then
                pyRound ((verified_users : ℚ) / (total_users : ℚ) * 100)
              else 0)),
            ("changeType", .str "neutral")
          ],
          .obj [
            ("label", .str "Unverified"),
            ("value", .int (total_users - verified_users)),
            ("icon", .str "⏳")
          ],
          .obj [
            ("label", .str "Active Today"),
            ("value", .str "—"),
            ("icon", .str "📊")
          ]
        ])
      ],
      .obj [
        ("type", .str "Card"),
        ("title", .str "Recent Users"),
        ("subtitle", .str "Latest registered users"),
        ("className", .str "mt-6"),
        ("children", .arr [
          .obj [
            ("type", .str "DataTable"),
            ("endpoint", .str "/api/users"),
            ("pagination", .bool false),
            ("searchable", .bool false),
            ("columns", .arr [
              .obj [("key", .str "email"), ("label", .str "Email")],
              .obj [
                ("key", .str "email_verified"),
                ("label", .str "Verified"),
                ("type", .str "boolean")
              ],
              .obj [
                ("key", .str "created_at"),
                ("label", .str "Created"),
                ("type", .str "datetime")
              ]
            ]),
            ("rowActions", .arr [
              .obj [
                ("type", .str "Button"),
                ("label", .str "View"),
                ("variant", .str "ghost"),
                ("size", .str "sm"),
                ("onClick", .obj [
                  ("type", .str "navigate"),
                  ("to", .str "/admin/users/{email}")
                ])
              ]
            ]),
            ("emptyMessage", .str "No users yet")
          ]
        ]),
        ("footer", .arr [
          .obj [
            ("type", .str "Link"),
            ("label", .str "View all users →"),
            ("href", .str "/admin/users")
          ]
        ])
      ],
      .obj [
        ("type", .str "Card"),
        ("title", .str "Quick Actions"),
        ("className", .str "mt-6"),
        ("children", .arr [
          .obj [
            ("type", .str "Row"),
            ("gap", .int 12),
            ("children", .arr [
              .obj [
                ("type", .str "Button"),
                ("label", .str "Export Users"),
                ("variant", .str "outline"),
                ("onClick", .obj [
                  ("type", .str "api"),
                  ("method", .str "GET"),
                  ("endpoint", .str "/api/users/export")
                ])
              ],
              .obj [
                ("type", .str "Button"),
                ("label", .str "Invite Users"),
                ("variant", .str "outline"),
                ("onClick", .obj [
                  ("type", .str "openModal"),
                  ("modal", .obj [
                    ("type", .str "Modal"),
                    ("title", .str "Invite Users"),
                    ("children", .arr [
                      .obj [
                        ("type", .str "Text"),
                        ("content", .str "Bulk invite functionality coming soon."),
                        ("variant", .str "muted")
                      ]
                    ])
                  ])
                ])
              ],
              .obj [
                ("type", .str "Button"),
                ("label", .str "View Logs"),
                ("variant", .str "outline"),
                ("onClick", .obj [("type", .str "navigate"), ("to", .str "/admin/logs")])
              ]
            ])
          ]
        ])
      ]
    ])
  ]

/-- `get_users_list_spec` of `app/ui_specs.py`: the users list page UI
spec, translated entry by entry from the Python dict literal. -/
def get_users_list_spec : JVal :=
  .obj [
    ("type", .str "Page"),
    ("title", .str "Users"),
    ("description", .str "Manage user accounts"),
    ("actions", .arr [
      .obj [
        ("type", .str "Button"),
        ("label", .str "Add User"),
        ("variant", .str "primary"),
        ("icon", .str "+"),
        ("onClick", .obj [
          ("type", .str "openModal"),
          ("modal", .obj [
            ("type", .str "Modal"),
            ("title", .str "Add New User"),
            ("size", .str "md"),
            ("children", .arr [
              .obj [
                ("type", .str "Form"),
                ("endpoint", .str "/api/users"),
                ("method", .str "POST"),
                ("submitText", .str "Create User"),
                ("cancelText", .str "Cancel"),
                ("fields", .arr [
                  .obj [
                    ("type", .str "TextField"),
                    ("name", .str "email"),
                    ("label", .str "Email"),
                    ("inputType", .str "email"),
                    ("required", .bool true)
                  ],
                  .obj [
                    ("type", .str "TextField"),
                    ("name", .str "password"),
                    ("label", .str "Password"),
                    ("inputType", .str "password"),
                    ("required", .bool true)
                  ],
                  .obj [
                    ("type", .str "Checkbox"),
                    ("name", .str "email_verified"),
                    ("checkboxLabel", .str "Mark email as verified")
                  ]
                ]),
                ("onSuccess", .obj [("type", .str "refresh")])
              ]
            ])
          ])
        ])
      ]
    ]),
    ("children", .arr [
      .obj [
        ("type", .str "Card"),
        ("children", .arr [
          .obj [
            ("type", .str "DataTable"),
            ("endpoint", .str "/api/users"),
            ("pagination", .bool true),
            ("pageSize", .int 20),
            ("searchable", .bool true),
            ("sortable", .bool true),
            ("columns", .arr [
              .obj [("key", .str "email"), ("label", .str "Email"), ("sortable", .bool true)],
              .obj [
                ("key", .str "email_verified"),
                ("label", .str "Verified"),
                ("type", .str "boolean"),
                ("sortable", .bool true)
              ],
              .obj [
                ("key", .str "two_factor_enabled"),
                ("label", .str "2FA"),
                ("type", .str "boolean")
              ],
              .obj [
                ("key", .str "created_at"),
                ("label", .str "Created"),
                ("type", .str "datetime"),
                ("sortable", .bool true)
              ],
              .obj [
                ("key", .str "updated_at"),
                ("label", .str "Updated"),
                ("type", .str "datetime")
              ]
            ]),
            ("rowActions", .arr [
              .obj [
                ("type", .str "Button"),
                ("label", .str "Edit"),
                ("variant", .str "ghost"),
                ("size", .str "sm"),
                ("onClick", .obj [
                  ("type", .str "navigate"),
                  ("to", .str "/admin/users/{email}")
                ])
              ],
              .obj [
                ("type", .str "Button"),
                ("label", .str "Delete"),
                ("variant", .str "danger"),
                ("size", .str "sm"),
                ("onClick", .obj [
                  ("type", .str "api"),
                  ("method", .str "DELETE"),
                  ("endpoint", .str "/api/users/{email}"),
                  ("confirm", .str "Are you sure you want to delete this user?"),
                  ("onSuccess", .obj [("type", .str "refresh")])
                ])
              ]
            ]),
            ("emptyMessage", .str "No users found")
          ]
        ])
      ]
    ])
  ]

mutual

/-- Python `repr` of a JSON-shaped value, as nested values render inside
containers. Strings are rendered between single quotes; the quote-switching
Python applies when the string itself holds a single quote is not modelled
(no value this system interpolates is affected). -/
def pyRepr : JVal → String
  | .null => "None"
  | .bool true => "True"
  | .bool false => "False"
  | .int n => toString n
  | .str s => "\x27" ++ s ++ "\x27"
  | .arr xs => "[" ++ String.intercalate ", " (pyReprList xs) ++ "]"
  | .obj fs => "\x7b" ++ String.intercalate ", " (pyReprEntries fs) ++ "\x7d"

def pyReprList : List JVal → List String
  | [] => []
  | v :: vs => pyRepr v :: pyReprList vs

def pyReprEntries : JObj → List String
  | [] => []
  | (k, v) :: rest => ("\x27" ++ k ++ "\x27: " ++ pyRepr v) :: pyReprEntries rest

end

/-- Python `str` of a value, as an f-string interpolates it: the string
itself for strings, the `repr` rendering otherwise. -/
def pyStr : JVal → String
  | .str s => s
  | v => pyRepr v

/-- `get_user_edit_spec` of `app/ui_specs.py`: the user edit page UI spec,
translated entry by entry from the Python dict literal; `user.get(k, d)`
becomes `dictGet user k d` and f-strings become string concatenation
through `pyStr`. -/
def get_user_edit_spec (user : JObj) : JVal :=
  .obj [
    ("type", .str "Page"),
    ("title", .str "Edit User"),
    ("description", dictGet user "email" (.str "")),
    ("actions", .arr [
      .obj [
        ("type", .str "Button"),
        ("label", .str "Back to Users"),
        ("variant", .str "outline"),
        ("onClick", .obj [("type", .str "navigate"), ("to", .str "/admin/users")])
      ]
    ]),
    ("children", .arr [
      .obj [
        ("type", .str "Card"),
        ("title", .str "User Details"),
        ("children", .arr [
          .obj [
            ("type", .str "Form"),
            ("endpoint", .str ("/api/users/" ++ pyStr (dictGet user "email" (.str "")))),
            ("method", .str "PUT"),
            ("submitText", .str "Save Changes"),
            ("initialValues", .obj [
              ("email_verified", dictGet user "email_verified" (.bool false)),
              ("two_factor_enabled", dictGet user "two_factor_enabled" (.bool false))
            ]),
            ("fields", .arr [
              .obj [
                ("type", .str "TextField"),
                ("name", .str "email"),
                ("label", .str "Email"),
                ("inputType", .str "email"),
                ("readOnly", .bool true),
                ("placeholder", dictGet user "email" (.str ""))
              ],
              .obj [
                ("type", .str "Checkbox"),
                ("name", .str "email_verified"),
                ("label", .str "Email Status"),
                ("checkboxLabel", .str "Email verified")
              ],
              .obj [
                ("type", .str "Checkbox"),
                ("name", .str "two_factor_enabled"),
                ("label", .str "Two-Factor Auth"),
                ("checkboxLabel", .str "2FA enabled")
              ]
            ]),
            ("onSuccess", .obj [("type", .str "navigate"), ("to", .str "/admin/users")])
          ]
        ])
      ],
      .obj [
        ("type", .str "Card"),
        ("title", .str "Metadata"),
        ("className", .str "mt-6"),
        ("children", .arr [
          .obj [
            ("type", .str "Row"),
            ("gap", .int 24),
            ("children", .arr [
              .obj [
                ("type", .str "Column"),
                ("children", .arr [
                  .obj [
                    ("type", .str "Text"),
                    ("content", .str "Created"),
                    ("variant", .str "small")
                  ],
                  .obj [
                    ("type", .str "Text"),
                    ("content", dictGet user "created_at" (.str "—")),
                    ("variant", .str "body")
                  ]
                ])
              ],
              .obj [
                ("type", .str "Column"),
                ("children", .arr [
                  .obj [
                    ("type", .str "Text"),
                    ("content", .str "Last Updated"),
                    ("variant", .str "small")
                  ],
                  .obj [
                    ("type", .str "Text"),
                    ("content", dictGet user "updated_at" (.str "—")),
                    ("variant", .str "body")
                  ]
                ])
              ]
            ])
          ]
        ])
      ],
      .obj [
        ("type", .str "Card"),
        ("title", .str "Danger Zone"),
        ("className", .str "mt-6"),
        ("children", .arr [
          .obj [
            ("type", .str "Alert"),
            ("variant", .str "warning"),
            ("message", .str "Deleting a user is permanent and cannot be undone.")
          ],
          .obj [
            ("type", .str "Button"),
            ("label", .str "Delete User"),
            ("variant", .str "danger"),
            ("className", .str "mt-4"),
            ("onClick", .obj [
              ("type", .str "api"),
              ("method", .str "DELETE"),
              ("endpoint", .str ("/api/users/" ++ pyStr (dictGet user "email" (.str "")))),
              ("confirm", .str ("Are you sure you want to delete " ++
                pyStr (dictGet user "email" (.str "this user")) ++ "?")),
              ("onSuccess", .obj [("type", .str "navigate"), ("to", .str "/admin/users")])
            ])
          ]
        ])
      ]
    ])
  ]

/-- Entry of an embedded object at key `k`; `null` when absent or when the
value is not an object. -/
def JVal.get (v : JVal) (k : String) : JVal :=
  match v with
  | .obj fs => (fs.lookup k).getD .null
  | _ => .null

/-- Element `i` of an embedded array; `null` when out of range or when the
value is not an array. -/
def JVal.idx (v : JVal) (i : Nat) : JVal :=
  match v with
  | .arr xs => xs.getD i .null
  | _ => .null

/-- Length of an embedded array; `0` when the value is not an array. -/
def JVal.len (v : JVal) : Nat :=
  match v with
  | .arr xs => xs.length
  | _ => 0

/-- The string held by an embedded string value; `""` otherwise. -/
def JVal.strVal (v : JVal) : String :=
  match v with
  | .str s => s
  | _ => ""

mutual

/-- Delete every object entry whose key lies in `ks`, recursively through
a document. -/
def eraseKeysDeep (ks : List String) : JVal → JVal
  | .obj fs => .obj (eraseKeysEntries ks fs)
  | .arr xs => .arr (eraseKeysList ks xs)
  | v => v

def eraseKeysEntries (ks : List String) : JObj → JObj
  | [] => []
  | (k, v) :: rest =>
      if ks.contains k then eraseKeysEntries ks rest
      else (k, eraseKeysDeep ks v) :: eraseKeysEntries ks rest

def eraseKeysList (ks : List String) : List JVal → List JVal
  | [] => []
  | v :: vs => eraseKeysDeep ks v :: eraseKeysList ks vs

end

/-! Request handlers of `app/main.py`. Each handler makes exactly one
upstream call through the `httpx` client; the observable outcome of that
call is embedded as `Upstream`, and the handler becomes a function from
that outcome to the HTTP result. -/

/-- Outcome of the one upstream HTTP call a handler performs: either a
response carrying a status code and a body (`Except.error` marks a body on
which `response.json()` raises), or a transport-level `httpx.HTTPError`
(timeout or connection failure) with its message. -/
inductive Upstream where
  | resp (status : Int) (body : Except String JVal)
  | transport (msg : String)

/-- Result of a request handler: an HTTP 200 JSON body, an
`HTTPException` carrying a status code and a `detail` value, or an
uncaught Python exception, which the framework surfaces as HTTP 500. -/
inductive HResult where
  | ok (body : JVal)
  | err (status : Int) (detail : JVal)
  | crash (msg : String)

/-- `ui_user_edit` of `app/main.py` (GET /ui/users/:user_id): a non-200
upstream status raises `HTTPException(404)` (FastAPI's `HTTPException` is
not an `httpx.HTTPError`, so the surrounding handler does not catch it); an
`httpx.HTTPError` maps to 502; on a 200 the fetched record is passed to
`get_user_edit_spec`. A body `response.json()` cannot parse raises out of
the handler, as does a 200 body that is not a JSON object (its `.get`
calls fail inside the builder). -/
def ui_user_edit (user_id : String) (up : Upstream) : HResult :=
  match up with
  | .transport msg => .err 502 (.str ("Auth service error: " ++ msg))
  | .resp status body =>
      if status ≠ 200 then .err 404 (.str "User not found")
      else
        match body with
        | .error msg => .crash msg
        | .ok (.obj user) => .ok (get_user_edit_spec user)
        | .ok _ => .crash "AttributeError"

/-- `api_users` of `app/main.py` (GET /api/users): a non-200 upstream
status returns `[]`, and the bare `except Exception` turns any raised
error — transport failure or unparsable body alike — into `[]`; a 200 body
is returned verbatim. (FastAPI's response-model validation downstream of
the returned value is outside this embedding.) -/
def api_users (up : Upstream) : HResult :=
  match up with
  | .transport _ => .ok (.arr [])
  | .resp status body =>
      if status ≠ 200 then .ok (.arr [])
      else
        match body with
        | .error _ => .ok (.arr [])
        | .ok v => .ok v

/-- `api_delete_user` of `app/main.py` (DELETE /api/users/:email): upstream
200 or 204 yields `\x7b"status": "deleted"\x7d`; any other status re-raises
the upstream's `detail` (defaulting to "Delete failed") under the upstream
status code, provided the failure body parses to a JSON object — an
unparsable body raises `JSONDecodeError` and a non-object body raises
`AttributeError` on `.get`, both uncaught; an `httpx.HTTPError` maps
to 502. -/
def api_delete_user (email : String) (up : Upstream) : HResult :=
  match up with
  | .transport msg => .err 502 (.str ("Auth service error: " ++ msg))
  | .resp status body =>
      if status = 200 ∨ status = 204 then .ok (.obj [("status", .str "deleted")])
      else
        match body with
        | .error msg => .crash msg
        | .ok (.obj fs) => .err status ((fs.lookup "detail").getD (.str "Delete failed"))
        | .ok _ => .crash "AttributeError"

/-! Claims. -/

/-- C1: every document any of the three builders produces is recursively
well-formed under the Node Schema — every node's `type` is one of the
fourteen registered node types, every bound action (onClick/onSuccess,
through modals and row actions) has one of the four registered action
types, and every entry of every Form's `fields` list carries a non-empty
`name` — for every total/verified count, every recent-users list and every
user record. -/
theorem builders_wellformed :
    (∀ (total_users verified_users : Int) (recent_users : List JObj),
        wfNode (get_dashboard_spec total_users verified_users recent_users) = true) ∧
    wfNode get_users_list_spec = true ∧
    (∀ user : JObj, wfNode (get_user_edit_spec user) = true) :=
  ⟨fun _ _ _ => rfl, rfl, fun _ => rfl⟩

/-- C2: for 0 ≤ verified_users ≤ total_users the dashboard's StatsGrid has
exactly 4 items, the item labeled "Unverified" carries value
total_users − verified_users, and the item labeled "Verified" carries
change round(verified_users / total_users * 100) when total_users > 0 and
0 otherwise. -/
theorem dashboard_stats_grid_correct (total_users verified_users : Int)
    (recent_users : List JObj)
    (ht : 0 ≤ total_users) (hv : 0 ≤ verified_users)
    (hvt : verified_users ≤ total_users) :
    ((((get_dashboard_spec total_users verified_users recent_users).get
        "children").idx 0).get "items").len = 4 ∧
    (((((get_dashboard_spec total_users verified_users recent_users).get
        "children").idx 0).get "items").idx 2).get "label" = .str "Unverified" ∧
    (((((get_dashboard_spec total_users verified_users recent_users).get
        "children").idx 0).get "items").idx 2).get "value" =
      .int (total_users - verified_users) ∧
    (((((get_dashboard_spec total_users verified_users recent_users).get
        "children").idx 0).get "items").idx 1).get "label" = .str "Verified" ∧
    (((((get_dashboard_spec total_users verified_users recent_users).get
        "children").idx 0).get "items").idx 1).get "change" =
      .int (if 0 < total_users then
          pyRound ((verified_users : ℚ) / (total_users : ℚ) * 100)
        else 0) :=
  ⟨rfl, rfl, rfl, rfl, rfl⟩

/-- C2 witness: the spec's own example, total_users = 10 and
verified_users = 7, gives Unverified.value = 3 and Verified.change = 70. -/
theorem dashboard_stats_grid_correct_witness :
    ((0:Int) ≤ 10 ∧ (0:Int) ≤ 7 ∧ (7:Int) ≤ 10) ∧
    ((((get_dashboard_spec 10 7 []).get "children").idx 0).get "items").len = 4 ∧
    (((((get_dashboard_spec 10 7 []).get "children").idx 0).get
        "items").idx 2).get "value" = .int 3 ∧
    (((((get_dashboard_spec 10 7 []).get "children").idx 0).get
        "items").idx 1).get "change" = .int 70 := by
  obtain ⟨h1, -, h3, -, h5⟩ :=
    dashboard_stats_grid_correct 10 7 [] (by decide) (by decide) (by decide)
  refine ⟨⟨by decide, by decide, by decide⟩, h1, ?_, ?_⟩
  · rw [h3]; norm_num
  · rw [h5]; norm_num [pyRound]

/-- C3: with total_users = 0 (and verified_users = 0) the dashboard builder
raises no exception — the division in the Verified item's change expression
is guarded by total_users > 0 and never reaches a zero divisor, for any
inputs — and the Verified change is 0. -/
theorem dashboard_zero_total_safe (recent_users : List JObj) :
    (∀ verified_users total_users : Int,
        dashboardChangeChecked verified_users total_users =
          some (if 0 < total_users then
              pyRound ((verified_users : ℚ) / (total_users : ℚ) * 100)
            else 0)) ∧
    dashboardChangeChecked 0 0 = some 0 ∧
    (((((get_dashboard_spec 0 0 recent_users).get "children").idx 0).get
        "items").idx 1).get "change" = .int 0 := by
  refine ⟨?_, rfl, rfl⟩
  intro v t
  by_cases h : 0 < t
  · have ht : (t : ℚ) ≠ 0 := Int.cast_ne_zero.mpr (ne_of_gt h)
    simp [dashboardChangeChecked, pyTrueDiv, h, ht]
  · simp [dashboardChangeChecked, h]

/-- C4: the users-list DataTable is paginated with page size 20, is
searchable, and its row actions are exactly the two buttons labeled "Edit"
and "Delete", in that order. -/
theorem users_list_datatable_config :
    ((((get_users_list_spec.get "children").idx 0).get "children").idx 0).get
        "pagination" = .bool true ∧
    ((((get_users_list_spec.get "children").idx 0).get "children").idx 0).get
        "pageSize" = .int 20 ∧
    ((((get_users_list_spec.get "children").idx 0).get "children").idx 0).get
        "searchable" = .bool true ∧
    (((((get_users_list_spec.get "children").idx 0).get "children").idx 0).get
        "rowActions").len = 2 ∧
    ((((((get_users_list_spec.get "children").idx 0).get "children").idx 0).get
        "rowActions").idx 0).get "label" = .str "Edit" ∧
    ((((((get_users_list_spec.get "children").idx 0).get "children").idx 0).get
        "rowActions").idx 1).get "label" = .str "Delete" :=
  ⟨rfl, rfl, rfl, rfl, rfl, rfl⟩

/-- C5: for the record holding only email = "a@b.com", the edit page's
Details form defaults email_verified and two_factor_enabled to false, the
Metadata card shows "—" for both timestamps, and the Danger Zone delete
action's endpoint and confirm text both contain "a@b.com". -/
theorem user_edit_minimal_record :
    ((((((get_user_edit_spec [("email", .str "a@b.com")]).get "children").idx
        0).get "children").idx 0).get "initialValues").get "email_verified" =
      .bool false ∧
    ((((((get_user_edit_spec [("email", .str "a@b.com")]).get "children").idx
        0).get "children").idx 0).get "initialValues").get
        "two_factor_enabled" = .bool false ∧
    (((((((((get_user_edit_spec [("email", .str "a@b.com")]).get
        "children").idx 1).get "children").idx 0).get "children").idx 0).get
        "children").idx 1).get "content" = .str "—" ∧
    (((((((((get_user_edit_spec [("email", .str "a@b.com")]).get
        "children").idx 1).get "children").idx 0).get "children").idx 1).get
        "children").idx 1).get "content" = .str "—" ∧
    "a@b.com".data <:+:
      (((((((get_user_edit_spec [("email", .str "a@b.com")]).get
        "children").idx 2).get "children").idx 1).get "onClick").get
        "endpoint").strVal.data ∧
    "a@b.com".data <:+:
      (((((((get_user_edit_spec [("email", .str "a@b.com")]).get
        "children").idx 2).get "children").idx 1).get "onClick").get
        "confirm").strVal.data :=
  ⟨rfl, rfl, rfl, rfl, by decide, by decide⟩

/-- C6 counterexample: the "Add User" Button of the dashboard page is not
structurally equal to the one of the users-list page — at the concrete
inputs total_users = 0, verified_users = 0, recent_users = [] the
dashboard's email field carries a placeholder the users-list version
lacks. -/
theorem add_user_actions_differ :
    ((((get_dashboard_spec 0 0 []).get "actions").idx 0) =
      ((get_users_list_spec.get "actions").idx 0)) = False :=
  eq_false fun h =>
    JVal.noConfusion (congrArg (fun v =>
      ((((((v.get "onClick").get "modal").get "children").idx 0).get
        "fields").idx 0).get "placeholder") h)

/-- C6 amended: the two "Add User" actions agree except that the
dashboard's email field carries placeholder "user@example.com" and its
email_verified checkbox carries label "Email Verified", both absent from
the users-list version: deleting every `placeholder` and `label` entry
throughout both subtrees makes them structurally equal, for every
dashboard input. -/
theorem add_user_actions_equal_sans_placeholder_label
    (total_users verified_users : Int) (recent_users : List JObj) :
    (((((((((get_dashboard_spec total_users verified_users recent_users).get
        "actions").idx 0).get "onClick").get "modal").get "children").idx
        0).get "fields").idx 0).get "placeholder" =
      .str "user@example.com" ∧
    ((((((((get_users_list_spec.get "actions").idx 0).get "onClick").get
        "modal").get "children").idx 0).get "fields").idx 0).get
        "placeholder" = .null ∧
    ((((((((get_users_list_spec.get "actions").idx 0).get "onClick").get
        "modal").get "children").idx 0).get "fields").idx 2).get
        "label" = .null ∧
    eraseKeysDeep ["placeholder", "label"]
        (((get_dashboard_spec total_users verified_users recent_users).get
          "actions").idx 0) =
      eraseKeysDeep ["placeholder", "label"]
        ((get_users_list_spec.get "actions").idx 0) :=
  ⟨rfl, rfl, rfl, rfl⟩

/-- C7: GET /ui/users/:id maps any non-200 upstream status to HTTP 404, it
answers HTTP 502 exactly when the upstream call fails at the transport
level, and on an upstream 200 carrying a record it returns the edit page
built from that record. -/
theorem ui_user_edit_error_mapping (user_id : String) (up : Upstream) :
    (∀ s b, up = .resp s b → s ≠ 200 →
        ui_user_edit user_id up = .err 404 (.str "User not found")) ∧
    ((∃ m, up = .transport m) ↔ (∃ d, ui_user_edit user_id up = .err 502 d)) ∧
    (∀ user : JObj, up = .resp 200 (.ok (.obj user)) →
        ui_user_edit user_id up = .ok (get_user_edit_spec user)) := by
  refine ⟨?_, ⟨?_, ?_⟩, ?_⟩
  · rintro s b rfl hne
    simp [ui_user_edit, hne]
  · rintro ⟨m, rfl⟩
    exact ⟨.str ("Auth service error: " ++ m), rfl⟩
  · rintro ⟨d, hd⟩
    cases up with
    | transport m => exact ⟨m, rfl⟩
    | resp s b =>
      exfalso
      by_cases hs : s = 200
      · subst hs
        simp only [ui_user_edit] at hd
        rw [if_neg (by decide : ¬ ((200:Int) ≠ 200))] at hd
        cases b with
        | error m => exact HResult.noConfusion hd
        | ok v => cases v <;> exact HResult.noConfusion hd
      · simp only [ui_user_edit] at hd
        rw [if_pos hs] at hd
        injection hd with h1 _
        omega
  · rintro user rfl
    rfl

/-- C7 witness: the three branches at concrete inputs — upstream 500 maps
to 404, a timeout maps to 502, an upstream 200 record yields the edit
page. -/
theorem ui_user_edit_error_mapping_witness :
    ui_user_edit "u1" (.resp 500 (.ok .null)) =
      .err 404 (.str "User not found") ∧
    ui_user_edit "u1" (.transport "timeout") =
      .err 502 (.str "Auth service error: timeout") ∧
    ui_user_edit "u1" (.resp 200 (.ok (.obj [("email", .str "a@b.com")]))) =
      .ok (get_user_edit_spec [("email", .str "a@b.com")]) :=
  ⟨(ui_user_edit_error_mapping "u1" _).1 500 _ rfl (by decide), rfl,
   (ui_user_edit_error_mapping "u1" _).2.2 [("email", .str "a@b.com")] rfl⟩

/-- C8: GET /api/users returns the upstream body verbatim on an upstream
200, and an empty array (still HTTP 200) on any other outcome — non-200
status, transport failure or unparsable body — never propagating the
upstream failure. -/
theorem api_users_error_shielding (up : Upstream) :
    (∀ v, up = .resp 200 (.ok v) → api_users up = .ok v) ∧
    ((∀ v, up ≠ .resp 200 (.ok v)) → api_users up = .ok (.arr [])) := by
  constructor
  · rintro v rfl
    rfl
  · intro h
    cases up with
    | transport m => rfl
    | resp s b =>
      by_cases hs : s = 200
      · subst hs
        cases b with
        | error m => rfl
        | ok v => exact absurd rfl (h v)
      · simp [api_users, hs]

/-- C8 witness: concrete inputs for each branch — upstream 503, a transport
failure and a 200 with an unparsable body all yield `[]`, and a 200 list is
forwarded verbatim. -/
theorem api_users_error_shielding_witness :
    api_users (.resp 503 (.ok (.str "Service Unavailable"))) = .ok (.arr []) ∧
    api_users (.transport "connection refused") = .ok (.arr []) ∧
    api_users (.resp 200 (.error "invalid json")) = .ok (.arr []) ∧
    api_users (.resp 200 (.ok (.arr [.obj [("email", .str "a@b.com")]]))) =
      .ok (.arr [.obj [("email", .str "a@b.com")]]) := by
  refine ⟨(api_users_error_shielding _).2 ?_,
          (api_users_error_shielding _).2 ?_,
          (api_users_error_shielding _).2 ?_,
          (api_users_error_shielding _).1 _ rfl⟩
  · intro v h
    injection h with h1 _
    omega
  · intro v h
    exact Upstream.noConfusion h
  · intro v h
    injection h with _ h2
    exact Except.noConfusion h2

/-- C9 counterexample: on an upstream failure status whose body is valid
JSON but not an object (status 418, body the JSON string "oops"),
DELETE /api/users/:id does not answer with the upstream status and the
default "Delete failed" detail — the handler's `response.json().get`
raises an uncaught AttributeError instead. -/
theorem api_delete_user_nonobject_body :
    api_delete_user "x" (.resp 418 (.ok (.str "oops"))) =
      .crash "AttributeError" ∧
    (api_delete_user "x" (.resp 418 (.ok (.str "oops"))) =
      .err 418 (.str "Delete failed")) = False :=
  ⟨rfl, eq_false fun h => HResult.noConfusion h⟩

/-- C9 amended: DELETE /api/users/:id answers `{"status": "deleted"}` with
HTTP 200 on upstream 200 and 204 alike; on any other upstream status whose
body parses to a JSON object it re-raises the upstream status with the
body's detail value, defaulting to "Delete failed" when the body has none;
on any other upstream status whose body does not parse, the parse error
propagates uncaught; and on a transport error it answers 502. -/
theorem api_delete_user_status_mapping (email : String) (up : Upstream) :
    (∀ s b, up = .resp s b → (s = 200 ∨ s = 204) →
        api_delete_user email up = .ok (.obj [("status", .str "deleted")])) ∧
    (∀ s fs, up = .resp s (.ok (.obj fs)) → ¬ (s = 200 ∨ s = 204) →
        api_delete_user email up =
          .err s ((fs.lookup "detail").getD (.str "Delete failed"))) ∧
    (∀ s m, up = .resp s (.error m) → ¬ (s = 200 ∨ s = 204) →
        api_delete_user email up = .crash m) ∧
    (∀ m, up = .transport m →
        api_delete_user email up =
          .err 502 (.str ("Auth service error: " ++ m))) := by
  refine ⟨?_, ?_, ?_, ?_⟩
  · rintro s b rfl hs
    simp [api_delete_user, hs]
  · rintro s fs rfl hs
    simp [api_delete_user, hs]
  · rintro s m rfl hs
    simp [api_delete_user, hs]
  · rintro m rfl
    rfl

/-- C9 witness: concrete inputs for each branch — upstream 204 and 200
both answer deleted, upstream 409 with a detail re-raises it, upstream 404
without a detail defaults to "Delete failed", and a transport error
answers 502. -/
theorem api_delete_user_status_mapping_witness :
    api_delete_user "x" (.resp 204 (.ok .null)) =
      .ok (.obj [("status", .str "deleted")]) ∧
    api_delete_user "x" (.resp 200 (.ok (.obj []))) =
      .ok (.obj [("status", .str "deleted")]) ∧
    api_delete_user "x" (.resp 409 (.ok (.obj [("detail", .str "in use")]))) =
      .err 409 (.str "in use") ∧
    api_delete_user "x" (.resp 404 (.ok (.obj [("other", .int 1)]))) =
      .err 404 (.str "Delete failed") ∧
    api_delete_user "x" (.transport "timeout") =
      .err 502 (.str "Auth service error: timeout") :=
  ⟨(api_delete_user_status_mapping "x" _).1 204 _ rfl (by decide),
   (api_delete_user_status_mapping "x" _).1 200 _ rfl (by decide),
   (api_delete_user_status_mapping "x" _).2.1 409 _ rfl (by decide),
   (api_delete_user_status_mapping "x" _).2.1 404 _ rfl (by decide),
   (api_delete_user_status_mapping "x" _).2.2.2 "timeout" rfl⟩

/-- C10: the dashboard document does not depend on the recent_users
argument — any two lists give identical output — and the Recent Users
card's DataTable instead binds the endpoint "/api/users" for the client to
fetch. -/
theorem dashboard_independent_of_recent_users
    (total_users verified_users : Int) (r1 r2 : List JObj) :
    get_dashboard_spec total_users verified_users r1 =
      get_dashboard_spec total_users verified_users r2 ∧
    (((((get_dashboard_spec total_users verified_users r1).get
        "children").idx 1).get "children").idx 0).get "endpoint" =
      .str "/api/users" ∧
    (((((get_dashboard_spec total_users verified_users r1).get
        "children").idx 1).get "children").idx 0).get "type" =
      .str "DataTable" :=
  ⟨rfl, rfl, rfl⟩

end AdminDashboard
